import Mathlib

/-!
Shallow embedding of the LogAn model-abstraction layer
(`logan/log_diagnosis/models/`): the `ModelTemplate` contract, the
`ModelRegistry` dynamic-plugin registry and loader, the `ModelManager`
facade and the built-in `ModelZeroShotClassifer` adapter.

Python strings are embedded as `List Char`; Python `dict` registry state is
an association list; the file system and the external zero-shot pipeline
backend are abstract parameters; Python exceptions are an `Err` inductive
(`ValueError` ↦ `configuration`, `FileNotFoundError` ↦ `notFound`,
`TypeError` ↦ `contractViolation`, `AttributeError` ↦ `attributeNotFound`,
`NotImplementedError` ↦ `unsupported`).  Scores are rationals.
-/

namespace LogAn

/-- Embedding of a Python string. -/
abbrev PyStr := List Char

/-- Error taxonomy: each constructor embeds one Python exception class used
by the source (`ValueError`, `FileNotFoundError`, `TypeError`,
`AttributeError`, `NotImplementedError`, `ImportError`). -/
inductive Err
  | configuration
  | notFound
  | contractViolation
  | attributeNotFound
  | unsupported
  | importFailure
  deriving DecidableEq, Repr

/-- ASCII whitespace stripped by Python `str.strip()`. -/
def isSpaceChar (c : Char) : Bool :=
  c = ' ' ∨ c = '\t' ∨ c = '\n' ∨ c = '\r'

/-- Python `str.strip()`: drop whitespace from both ends. -/
def pyStrip (s : PyStr) : PyStr :=
  ((s.dropWhile isSpaceChar).reverse.dropWhile isSpaceChar).reverse

/-- Python `s.rsplit(sep, 1)` for a one-character separator: when the
separator occurs, split at its rightmost occurrence into two parts;
otherwise return the whole string as a single part. -/
def rsplit1 (sep : Char) (s : PyStr) : List PyStr :=
  if sep ∈ s then
    let r := s.reverse
    [((r.dropWhile (fun c => c ≠ sep)).drop 1).reverse,
     (r.takeWhile (fun c => c ≠ sep)).reverse]
  else [s]

/-- Embeds `ModelRegistry.parse_model_path` (manager.py:84-118): parse
`"<script_path>:<class_name>"`, splitting on the last colon; `ValueError`
when no colon is present or either stripped segment is empty. -/
def parse_model_path (model_path : PyStr) : Except Err (PyStr × PyStr) :=
  if ':' ∉ model_path then .error .configuration
  else
    match rsplit1 ':' model_path with
    | [script_path, class_name] =>
        if pyStrip script_path = [] then .error .configuration
        else if pyStrip class_name = [] then .error .configuration
        else .ok (pyStrip script_path, pyStrip class_name)
    | _ => .error .configuration

lemma dropWhile_append_of_forall {p : Char → Bool} {u : List Char}
    (v : List Char) (h : ∀ c ∈ u, p c = true) :
    (u ++ v).dropWhile p = v.dropWhile p := by
  induction u with
  | nil => rfl
  | cons a u ih =>
      simp only [List.cons_append, List.dropWhile_cons,
        h a (List.mem_cons_self a u), if_pos]
      exact ih fun c hc => h c (List.mem_cons_of_mem a hc)

lemma takeWhile_append_of_forall {p : Char → Bool} {u : List Char}
    (v : List Char) (h : ∀ c ∈ u, p c = true) :
    (u ++ v).takeWhile p = u ++ v.takeWhile p := by
  induction u with
  | nil => rfl
  | cons a u ih =>
      simp only [List.cons_append, List.takeWhile_cons,
        h a (List.mem_cons_self a u), if_pos]
      exact congrArg (a :: ·) (ih fun c hc => h c (List.mem_cons_of_mem a hc))

/-- On a string whose final colon separates `p` from `c`, `rsplit1` returns
exactly the two surrounding segments. -/
lemma rsplit1_last_colon (p c : PyStr) (hc : ':' ∉ c) :
    rsplit1 ':' (p ++ ':' :: c) = [p, c] := by
  have hmem : ':' ∈ p ++ ':' :: c :=
    List.mem_append_right p (List.mem_cons_self ':' c)
  have hrev : (p ++ ':' :: c).reverse = c.reverse ++ ':' :: p.reverse := by
    simp [List.reverse_append]
  have hall : ∀ x ∈ c.reverse, (fun ch => decide (ch ≠ ':')) x = true := by
    intro x hx
    have : x ∈ c := List.mem_reverse.mp hx
    simp only [decide_eq_true_eq]
    intro hEq; exact hc (hEq ▸ this)
  unfold rsplit1
  rw [if_pos hmem]
  simp only [hrev]
  rw [dropWhile_append_of_forall (':' :: p.reverse) hall,
      takeWhile_append_of_forall (':' :: p.reverse) hall]
  simp [List.dropWhile_cons, List.takeWhile_cons]

/-- A separator-free string fails to parse with the format error. -/
lemma parse_model_path_no_colon {s : PyStr} (hs : ':' ∉ s) :
    parse_model_path s = .error .configuration := by
  unfold parse_model_path
  rw [if_pos hs]

/-- A string whose last colon separates `p` from `c` parses to the stripped
segments, or fails with the format error when either strip is empty. -/
lemma parse_model_path_split (p c : PyStr) (hc : ':' ∉ c) :
    parse_model_path (p ++ ':' :: c) =
      (if pyStrip p = [] ∨ pyStrip c = [] then .error .configuration
       else .ok (pyStrip p, pyStrip c)) := by
  have hmem : ':' ∈ p ++ ':' :: c :=
    List.mem_append_right p (List.mem_cons_self ':' c)
  unfold parse_model_path
  rw [if_neg (not_not_intro hmem), rsplit1_last_colon p c hc]
  by_cases h1 : pyStrip p = []
  · simp [h1]
  · by_cases h2 : pyStrip c = []
    · simp [h1, h2]
    · simp [h1, h2]

/-- C7: `parse_model_path` splits on the rightmost separator — for any
string whose last colon separates `p` from `c`, the parse yields the two
stripped segments — and fails with a format error (`ValueError`, embedded
as `Err.configuration`) exactly when no separator is present or when either
segment is empty after trimming whitespace. -/
theorem parse_model_path_rightmost_split (p c s : PyStr) (hc : ':' ∉ c)
    (hs : ':' ∉ s) :
    parse_model_path (p ++ ':' :: c) =
      (if pyStrip p = [] ∨ pyStrip c = [] then .error .configuration
       else .ok (pyStrip p, pyStrip c)) ∧
    parse_model_path s = .error .configuration :=
  ⟨parse_model_path_split p c hc, parse_model_path_no_colon hs⟩

/-- Witness for C7 at `"C:\\x\\m.py:Cls"` (a drive-letter path containing
the separator) and at the separator-free string `"nosep"`. -/
theorem parse_model_path_rightmost_split_witness :
    (':' ∉ "Cls".toList) ∧ (':' ∉ "nosep".toList) ∧
    (parse_model_path ("C:\\x\\m.py".toList ++ ':' :: "Cls".toList) =
      (if pyStrip "C:\\x\\m.py".toList = [] ∨ pyStrip "Cls".toList = []
       then .error .configuration
       else .ok (pyStrip "C:\\x\\m.py".toList, pyStrip "Cls".toList)) ∧
     parse_model_path "nosep".toList = .error .configuration) :=
  ⟨by decide, by decide,
   parse_model_path_rightmost_split "C:\\x\\m.py".toList "Cls".toList
     "nosep".toList (by decide) (by decide)⟩

/-- One zero-shot classification result item: parallel `labels` / `scores`
sequences (the `sequence` echo field of the backend is omitted). -/
structure ZSRes where
  labels : List PyStr
  scores : List ℚ
  deriving DecidableEq, Repr

/-- The external zero-shot pipeline backend (`transformers.pipeline`),
abstract: texts, candidate labels and batch size to one result per text. -/
abbrev Pipe := List PyStr → List PyStr → Nat → List ZSRes

/-- Constructor keyword arguments (`custom_model_kwargs`); their values are
never inspected by the layer under study, so an opaque payload suffices. -/
abbrev Kwargs := List (PyStr × Int)

/-- Embedding of a Python class as the loader/registry sees it: whether it
subclasses `ModelTemplate`, which of the three abstract contract methods it
concretely implements, and the behaviour its instances would have. -/
structure PyClass where
  subclassOfModelTemplate : Bool
  implements_init_model : Bool
  implements_classify_golden_signal : Bool
  implements_classify_fault_category : Bool
  gsImpl : Kwargs → List PyStr → Nat → List ZSRes
  fcImpl : Kwargs → List PyStr → Nat → List ZSRes

/-- A class provides concrete implementations of all three contract
operations. -/
def implementsAll (c : PyClass) : Bool :=
  c.implements_init_model && c.implements_classify_golden_signal &&
    c.implements_classify_fault_category

/-- Python refuses to instantiate a subclass of the ABC that leaves any
abstract method unimplemented. -/
def isAbstract (c : PyClass) : Bool :=
  c.subclassOfModelTemplate && !(implementsAll c)

/-- A module-level attribute: either a class object or some non-type value
(`isinstance(obj, type)` distinguishes the two). -/
inductive PyObj
  | cls (c : PyClass)
  | nonType

/-- A loaded module: named top-level attributes. -/
abbrev Module := List (PyStr × PyObj)

/-- The file system, abstract: maps a script path to the module its
top-level code produces when executed, or `none` when the file is absent. -/
abbrev FileSys := PyStr → Option Module

/-- An instantiated model object: its class plus the bound behaviour of its
two classify methods. -/
structure PyInstance where
  cls : PyClass
  gs : List PyStr → Nat → List ZSRes
  fc : List PyStr → Nat → List ZSRes

/-- Instantiating a class (`model_cls(**kwargs)`): Python raises `TypeError`
for an abstract-method-bearing subclass of the ABC; otherwise the instance
binds the method implementations of the class closed over the kwargs. -/
def instantiate (c : PyClass) (kwargs : Kwargs) : Except Err PyInstance :=
  if isAbstract c then .error .contractViolation
  else .ok ⟨c, c.gsImpl kwargs, c.fcImpl kwargs⟩

/-- Embeds `script_path.endswith(".py")`. -/
def endsWithPy (s : PyStr) : Bool := s.reverse.take 3 = ['y', 'p', '.']

/-- Module attribute lookup (`hasattr` / `getattr`). -/
def moduleLookup (m : Module) (name : PyStr) : Option PyObj :=
  (m.find? (fun e => e.1 = name)).map (·.2)

/-- Embeds `ModelRegistry.load_class_from_script` (manager.py:120-177): existence
check (`FileNotFoundError`), `.py`-extension check (`ValueError`), module
execution, attribute lookup (`AttributeError`), and the
`isinstance`/`issubclass` conformance check (`TypeError`).  Path expansion
to an absolute path is the identity in this embedding (the abstract file
system is keyed by the given path). -/
def load_class_from_script (fs : FileSys) (script_path class_name : PyStr) :
    Except Err PyClass :=
  match fs script_path with
  | none => .error .notFound
  | some module =>
      if !endsWithPy script_path then .error .configuration
      else
        match moduleLookup module class_name with
        | none => .error .attributeNotFound
        | some .nonType => .error .contractViolation
        | some (.cls c) =>
            if c.subclassOfModelTemplate then .ok c
            else .error .contractViolation

/-- The top-level code of the script executes (`spec.loader.exec_module`) exactly
when the file exists and has the `.py` extension — before the attribute and
conformance checks. -/
def loadExecutes (fs : FileSys) (script_path : PyStr) : Bool :=
  (fs script_path).isSome && endsWithPy script_path

/-- Registry insertion (`cls._registry[name] = model_cls`): later bindings
shadow earlier ones. -/
def setReg (r : List (PyStr × PyClass)) (name : PyStr) (c : PyClass) :
    List (PyStr × PyClass) :=
  (name, c) :: r

/-- Registry lookup (`cls._registry.get(name)`). -/
def getReg (r : List (PyStr × PyClass)) (name : PyStr) : Option PyClass :=
  (r.find? (fun e => e.1 = name)).map (·.2)

/-- Process-wide mutable state: the `ModelRegistry._registry` dict plus the
trace of script paths whose top-level code has been executed, in order. -/
structure RegState where
  registry : List (PyStr × PyClass)
  loads : List PyStr

/-- The empty process state. -/
def initState : RegState := ⟨[], []⟩

/-- Embeds `ModelRegistry.is_registered` (manager.py:223-226). -/
def is_registered (st : RegState) (name : PyStr) : Bool :=
  (getReg st.registry name).isSome

/-- Embeds `ModelRegistry.register_from_path` (manager.py:179-198): parse the
path-spec, load (executing the script as a side effect recorded in
`loads`), and on success store the class under `name`. -/
def register_from_path (fs : FileSys) (st : RegState) (name spec : PyStr) :
    RegState × Except Err PyClass :=
  match parse_model_path spec with
  | .error e => (st, .error e)
  | .ok (script_path, class_name) =>
      let st1 : RegState :=
        if loadExecutes fs script_path then
          { st with loads := st.loads ++ [script_path] }
        else st
      match load_class_from_script fs script_path class_name with
      | .error e => (st1, .error e)
      | .ok c => ({ st1 with registry := setReg st1.registry name c }, .ok c)

/-- Embeds `ModelRegistry.register_class` (manager.py:200-211): direct
registration, guarded only by the `isinstance(model_cls, type)` and
`issubclass(model_cls, ModelTemplate)` check (`TypeError` otherwise). -/
def register_class (st : RegState) (name : PyStr) (model_cls : PyObj) :
    RegState × Except Err Unit :=
  match model_cls with
  | .nonType => (st, .error .contractViolation)
  | .cls c =>
      if c.subclassOfModelTemplate then
        ({ st with registry := setReg st.registry name c }, .ok ())
      else (st, .error .contractViolation)

/-- Embeds the `ZeroShotModels` enum (model_zero_shot_classifer.py:6-8). -/
inductive ZeroShotModels
  | BART
  | CROSSENCODER
  deriving DecidableEq, Repr

/-- The Hugging Face model identifier each enum member carries. -/
def ZeroShotModels.value : ZeroShotModels → PyStr
  | .BART => "facebook/bart-large-mnli".toList
  | .CROSSENCODER => "cross-encoder/nli-MiniLM2-L6-H768".toList

/-- The golden-signal candidate labels
(model_zero_shot_classifer.py:30). -/
def golden_signal_labels : List PyStr :=
  ["information".toList, "error".toList, "availability".toList,
   "latency".toList, "saturation".toList, "traffic".toList]

/-- The fault-category candidate labels
(model_zero_shot_classifer.py:38). -/
def fault_category_labels : List PyStr :=
  ["io".toList, "authentication".toList, "network".toList,
   "application".toList, "device".toList]

namespace ModelZeroShotClassifer

/-- Embeds `ModelZeroShotClassifer.classify_golden_signal`
(model_zero_shot_classifer.py:29-35): call the bound pipeline with the six
golden-signal candidate labels and return its results.  The Python
single-input dict-to-list coercion is the identity in this list-valued
embedding. -/
def classify_golden_signal (pipe : Pipe) (input : List PyStr)
    (batch_size : Nat) : List ZSRes :=
  pipe input golden_signal_labels batch_size

/-- Embeds `ModelZeroShotClassifer.classify_fault_category`
(model_zero_shot_classifer.py:37-43): call the bound pipeline with the five
fault-category candidate labels and return its results.  The Python
single-input dict-to-list coercion is the identity in this list-valued
embedding. -/
def classify_fault_category (pipe : Pipe) (input : List PyStr)
    (batch_size : Nat) : List ZSRes :=
  pipe input fault_category_labels batch_size

end ModelZeroShotClassifer

/-- A stub pipeline with the shape of the real zero-shot backend: for each
input text it returns the full candidate-label distribution — every
candidate label, scores in descending order. -/
def fullDistPipe : Pipe := fun input labels _ =>
  input.map (fun _ =>
    ⟨labels, (List.range labels.length).map (fun i => (1 : ℚ) / (i + 2))⟩)

/-- C1 counterexample: against a backend returning the full 6-label
distribution (the shape the real zero-shot pipeline produces), the result
item of `classify_golden_signal` for the text `"disk failure"` contains all
6 label/score pairs, not exactly one: the adapter performs no narrowing to
the top-ranked label. -/
theorem classify_golden_signal_no_narrowing_counterexample :
    ((ModelZeroShotClassifer.classify_golden_signal fullDistPipe
        ["disk failure".toList] 32).map (fun r => r.labels.length) = [6]) ∧
    ((ModelZeroShotClassifer.classify_golden_signal fullDistPipe
        ["disk failure".toList] 32).map (fun r => r.labels.length) ≠ [1]) :=
  ⟨by decide, by decide⟩

/-- C1 amended: `classify_golden_signal` returns the backend results
unmodified — no narrowing to the top-ranked label.  Whenever the backend
returns, per text, its full distribution over the candidate labels (as the
real zero-shot pipeline does), each result item carries all 6 taxonomy
labels with parallel scores, one item per input text, and the output equals
the backend output verbatim. -/
theorem classify_golden_signal_full_distribution (pipe : Pipe)
    (input : List PyStr) (batch_size : Nat)
    (hlen : (pipe input golden_signal_labels batch_size).length =
      input.length)
    (hdist : ∀ r ∈ pipe input golden_signal_labels batch_size,
      r.labels.Perm golden_signal_labels ∧
        r.scores.length = r.labels.length) :
    ModelZeroShotClassifer.classify_golden_signal pipe input batch_size =
      pipe input golden_signal_labels batch_size ∧
    (ModelZeroShotClassifer.classify_golden_signal pipe input
        batch_size).length = input.length ∧
    ∀ r ∈ ModelZeroShotClassifer.classify_golden_signal pipe input
        batch_size,
      r.labels.length = 6 ∧ r.scores.length = 6 ∧
        ∀ l ∈ r.labels, l ∈ golden_signal_labels := by
  refine ⟨rfl, hlen, fun r hr => ?_⟩
  obtain ⟨hperm, hsc⟩ := hdist r hr
  have h6 : golden_signal_labels.length = 6 := by decide
  refine ⟨hperm.length_eq.trans h6, ?_, fun l hl => hperm.mem_iff.mp hl⟩
  rw [hsc, hperm.length_eq, h6]

/-- Witness for the amended C1 at the stub backend and one input text. -/
theorem classify_golden_signal_full_distribution_witness :
    ((fullDistPipe ["x".toList] golden_signal_labels 32).length =
      [("x".toList : PyStr)].length) ∧
    (∀ r ∈ fullDistPipe ["x".toList] golden_signal_labels 32,
      r.labels.Perm golden_signal_labels ∧
        r.scores.length = r.labels.length) ∧
    (ModelZeroShotClassifer.classify_golden_signal fullDistPipe
        ["x".toList] 32 =
      fullDistPipe ["x".toList] golden_signal_labels 32 ∧
    (ModelZeroShotClassifer.classify_golden_signal fullDistPipe
        ["x".toList] 32).length = [("x".toList : PyStr)].length ∧
    ∀ r ∈ ModelZeroShotClassifer.classify_golden_signal fullDistPipe
        ["x".toList] 32,
      r.labels.length = 6 ∧ r.scores.length = 6 ∧
        ∀ l ∈ r.labels, l ∈ golden_signal_labels) :=
  ⟨by decide, by decide,
   classify_golden_signal_full_distribution fullDistPipe ["x".toList] 32
     (by decide) (by decide)⟩

/-- A deterministic stub backend realizing the spec's fault-category
scenario: text 1 scores `io=0.9, device=0.2` (remaining labels below),
text 2 scores `authentication=0.95` (remaining labels below), each item a
full 5-label distribution in confidence-descending order, as the real
zero-shot pipeline produces. -/
def scenarioPipe : Pipe := fun input _ _ =>
  input.map (fun t =>
    if t = "Disk I/O timeout on node-7".toList then
      ⟨["io".toList, "device".toList, "network".toList,
        "application".toList, "authentication".toList],
       [9/10, 1/5, 1/20, 3/100, 1/50]⟩
    else
      ⟨["authentication".toList, "io".toList, "network".toList,
        "application".toList, "device".toList],
       [19/20, 1/10, 1/20, 3/100, 1/50]⟩)

/-- C2 counterexample: on the spec's own scenario (threshold 0.3, text 1
scored `io=0.9, device=0.2`), `classify_fault_category` keeps all 5
label/score pairs of the backend distribution, including the `device` score
`0.2`, which is below the threshold `0.3`: no threshold is applied, so the
result is not `{labels:["io"], scores:[0.9]}`. -/
theorem classify_fault_category_no_threshold_counterexample :
    (ModelZeroShotClassifer.classify_fault_category scenarioPipe
        ["Disk I/O timeout on node-7".toList,
         "User login failed: bad password".toList] 32 =
      [⟨["io".toList, "device".toList, "network".toList,
         "application".toList, "authentication".toList],
        [9/10, 1/5, 1/20, 3/100, 1/50]⟩,
       ⟨["authentication".toList, "io".toList, "network".toList,
         "application".toList, "device".toList],
        [19/20, 1/10, 1/20, 3/100, 1/50]⟩]) ∧
    ((ModelZeroShotClassifer.classify_fault_category scenarioPipe
        ["Disk I/O timeout on node-7".toList,
         "User login failed: bad password".toList] 32).map
      (fun r => r.labels.length) = [5, 5]) ∧
    ((1 : ℚ)/5 < 3/10) :=
  ⟨by rfl, by decide, by norm_num⟩

/-- C2 amended: `classify_fault_category` returns the backend results
unmodified — the backend confidence-descending order is preserved because
the output equals the backend output verbatim, but no threshold filtering
occurs.  Whenever the backend returns, per text, its full distribution over
the candidate labels, each result item carries all 5 taxonomy labels with
parallel scores (sub-threshold scores included), one item per input
text. -/
theorem classify_fault_category_full_distribution (pipe : Pipe)
    (input : List PyStr) (batch_size : Nat)
    (hlen : (pipe input fault_category_labels batch_size).length =
      input.length)
    (hdist : ∀ r ∈ pipe input fault_category_labels batch_size,
      r.labels.Perm fault_category_labels ∧
        r.scores.length = r.labels.length) :
    ModelZeroShotClassifer.classify_fault_category pipe input batch_size =
      pipe input fault_category_labels batch_size ∧
    (ModelZeroShotClassifer.classify_fault_category pipe input
        batch_size).length = input.length ∧
    ∀ r ∈ ModelZeroShotClassifer.classify_fault_category pipe input
        batch_size,
      r.labels.length = 5 ∧ r.scores.length = 5 ∧
        ∀ l ∈ r.labels, l ∈ fault_category_labels := by
  refine ⟨rfl, hlen, fun r hr => ?_⟩
  obtain ⟨hperm, hsc⟩ := hdist r hr
  have h5 : fault_category_labels.length = 5 := by decide
  refine ⟨hperm.length_eq.trans h5, ?_, fun l hl => hperm.mem_iff.mp hl⟩
  rw [hsc, hperm.length_eq, h5]

/-- Witness for the amended C2 at the scenario backend and the spec's two
scenario texts. -/
theorem classify_fault_category_full_distribution_witness :
    ((scenarioPipe ["Disk I/O timeout on node-7".toList]
        fault_category_labels 32).length =
      [("Disk I/O timeout on node-7".toList : PyStr)].length) ∧
    (∀ r ∈ scenarioPipe ["Disk I/O timeout on node-7".toList]
        fault_category_labels 32,
      r.labels.Perm fault_category_labels ∧
        r.scores.length = r.labels.length) ∧
    (ModelZeroShotClassifer.classify_fault_category scenarioPipe
        ["Disk I/O timeout on node-7".toList] 32 =
      scenarioPipe ["Disk I/O timeout on node-7".toList]
        fault_category_labels 32 ∧
    (ModelZeroShotClassifer.classify_fault_category scenarioPipe
        ["Disk I/O timeout on node-7".toList] 32).length =
      [("Disk I/O timeout on node-7".toList : PyStr)].length ∧
    ∀ r ∈ ModelZeroShotClassifer.classify_fault_category scenarioPipe
        ["Disk I/O timeout on node-7".toList] 32,
      r.labels.length = 5 ∧ r.scores.length = 5 ∧
        ∀ l ∈ r.labels, l ∈ fault_category_labels) :=
  ⟨by decide, by decide,
   classify_fault_category_full_distribution scenarioPipe
     ["Disk I/O timeout on node-7".toList] 32 (by decide) (by decide)⟩

/-- C6: `register_from_path` with a spec lacking a separator, or with an
empty path or class segment after trimming, fails with the format error
(`ValueError`, embedded as `Err.configuration`) for every file system,
leaving the process state — including the script-execution trace —
untouched (no file access is attempted); with a well-formed spec whose
referenced script file does not exist, it fails with `FileNotFoundError`
(embedded as `Err.notFound`). -/
theorem register_from_path_error_cases (fs : FileSys) (st : RegState)
    (name : PyStr) :
    (∀ spec, ':' ∉ spec →
      register_from_path fs st name spec = (st, .error .configuration)) ∧
    (∀ p c, ':' ∉ c → (pyStrip p = [] ∨ pyStrip c = []) →
      register_from_path fs st name (p ++ ':' :: c) =
        (st, .error .configuration)) ∧
    (∀ p c, ':' ∉ c → pyStrip p ≠ [] → pyStrip c ≠ [] →
      fs (pyStrip p) = none →
      register_from_path fs st name (p ++ ':' :: c) =
        (st, .error .notFound)) := by
  refine ⟨fun spec hs => ?_, fun p c hc hemp => ?_,
    fun p c hc hp hcn hfs => ?_⟩
  · simp [register_from_path, parse_model_path_no_colon hs]
  · simp [register_from_path, parse_model_path_split p c hc, hemp]
  · have hparse : parse_model_path (p ++ ':' :: c) =
        .ok (pyStrip p, pyStrip c) := by
      rw [parse_model_path_split p c hc, if_neg (by simp [hp, hcn])]
    have hexec : loadExecutes fs (pyStrip p) = false := by
      simp [loadExecutes, hfs]
    simp [register_from_path, hparse, hexec,
      load_class_from_script, hfs]

/-- Witness for C6: a separator-free spec, a spec with a blank class
segment, and a well-formed spec against an empty file system. -/
theorem register_from_path_error_cases_witness :
    (':' ∉ "nosep".toList) ∧ (':' ∉ " ".toList) ∧ (':' ∉ "Cls".toList) ∧
    (pyStrip " ".toList = [] ∨ pyStrip " ".toList = []) ∧
    (pyStrip "m.py".toList ≠ []) ∧ (pyStrip "Cls".toList ≠ []) ∧
    ((fun _ => none : FileSys) (pyStrip "m.py".toList) = none) ∧
    ((register_from_path (fun _ => none) initState "n".toList
        "nosep".toList = (initState, .error .configuration)) ∧
     (register_from_path (fun _ => none) initState "n".toList
        ("m.py".toList ++ ':' :: " ".toList) =
       (initState, .error .configuration)) ∧
     (register_from_path (fun _ => none) initState "n".toList
        ("m.py".toList ++ ':' :: "Cls".toList) =
       (initState, .error .notFound))) := by
  have h := register_from_path_error_cases (fun _ => none) initState
    "n".toList
  exact ⟨by decide, by decide, by decide, by decide, by decide, by decide,
    rfl,
    h.1 "nosep".toList (by decide),
    h.2.1 "m.py".toList " ".toList (by decide) (by decide),
    h.2.2 "m.py".toList "Cls".toList (by decide) (by decide) (by decide)
      rfl⟩

/-- A class subclassing `ModelTemplate` while implementing none of the
three abstract contract methods (Python accepts `class Bad(ModelTemplate):
pass` as a type; it only refuses to *instantiate* it). -/
def incompleteSubclass : PyClass :=
  ⟨true, false, false, false, fun _ _ _ => [], fun _ _ _ => []⟩

/-- A fully conformant `ModelTemplate` subclass with trivial behaviour. -/
def goodClass : PyClass :=
  ⟨true, true, true, true, fun _ _ _ => [], fun _ _ _ => []⟩

/-- C4 counterexample: `register_class` accepts `incompleteSubclass` — a
subclass of the abstract base that implements none of `init_model`,
`classify_golden_signal`, `classify_fault_category` — into the registry,
so a type can be accepted without satisfying the full Contract. -/
theorem register_class_accepts_incomplete_counterexample :
    ((register_class initState "bad".toList
        (.cls incompleteSubclass)).2 = .ok ()) ∧
    (is_registered (register_class initState "bad".toList
        (.cls incompleteSubclass)).1 "bad".toList = true) ∧
    (implementsAll incompleteSubclass = false) :=
  ⟨rfl, rfl, rfl⟩

/-- C4 amended: acceptance into the registry — via `register_class`, and
equally for types produced by `load_class_from_script` — validates exactly
that the object is a type subclassing the abstract base, not that it
implements the three contract operations; a subclass leaving abstract
methods unimplemented is accepted, and the missing-implementation failure
surfaces only at instantiation time (for the Manager: at construction,
still never at a classify call). -/
theorem register_class_validates_subclass_only :
    (∀ st name obj, ((register_class st name obj).2 = .ok ()) ↔
      (∃ c, obj = .cls c ∧ c.subclassOfModelTemplate = true)) ∧
    (∀ fs sp cn c, load_class_from_script fs sp cn = .ok c →
      c.subclassOfModelTemplate = true) ∧
    (∀ c k, isAbstract c = true →
      instantiate c k = .error .contractViolation) := by
  refine ⟨fun st name obj => ?_, fun fs sp cn c h => ?_, fun c k h => ?_⟩
  · constructor
    · intro h
      match obj with
      | .nonType => simp [register_class] at h
      | .cls c =>
          refine ⟨c, rfl, ?_⟩
          by_contra hsub
          simp [register_class, hsub] at h
    · rintro ⟨c, rfl, hsub⟩
      simp [register_class, hsub]
  · unfold load_class_from_script at h
    split at h
    · simp at h
    · split at h
      · simp at h
      · split at h
        · simp at h
        · simp at h
        · split at h
          next hsub => cases h; exact hsub
          next => simp at h
  · simp [instantiate, h]

/-- Witness for the amended C4: `register_class` accepts `goodClass`, and
instantiating the abstract `incompleteSubclass` fails with the contract
violation (`TypeError`). -/
theorem register_class_validates_subclass_only_witness :
    ((register_class initState "g".toList (.cls goodClass)).2 =
        .ok () ↔
      (∃ c, (PyObj.cls goodClass) = .cls c ∧
        c.subclassOfModelTemplate = true)) ∧
    (isAbstract incompleteSubclass = true) ∧
    (instantiate incompleteSubclass [] = .error .contractViolation) :=
  ⟨register_class_validates_subclass_only.1 initState "g".toList
      (.cls goodClass),
   rfl,
   register_class_validates_subclass_only.2.2 incompleteSubclass []
     (by rfl)⟩

/-- A Python `hash` abstraction: any integer-valued function of the string
(the builtin string hash need not be injective). -/
abbrev PyHash := PyStr → Int

/-- The generated registry key `f"_auto_{hash(model_path)}"`
(models/__init__.py:104). -/
def autoName (pyhash : PyHash) (model_path : PyStr) : PyStr :=
  "_auto_".toList ++ (toString (pyhash model_path)).toList

/-- Embeds `ModelManager._create_custom_model` (models/__init__.py:84-113):
method 1, a supplied pre-built instance, guarded by
`isinstance(custom_model_instance, ModelTemplate)` (`TypeError` on
failure), returned as-is; method 2, a path string, auto-registered under
the hash-derived name when not yet registered, then the registered class is
instantiated with the kwargs; neither supplied raises `ValueError`. -/
def create_custom_model (fs : FileSys) (pyhash : PyHash) (st : RegState)
    (model_path : Option PyStr) (custom_model_instance : Option PyInstance)
    (custom_model_kwargs : Kwargs) : RegState × Except Err PyInstance :=
  match custom_model_instance with
  | some inst =>
      (st, if inst.cls.subclassOfModelTemplate then .ok inst
           else .error .contractViolation)
  | none =>
      match model_path with
      | some p =>
          let an := autoName pyhash p
          let reg : RegState × Except Err Unit :=
            if is_registered st an then (st, .ok ())
            else
              let r := register_from_path fs st an p
              (r.1, r.2.map fun _ => ())
          match reg.2 with
          | .error e => (reg.1, .error e)
          | .ok _ =>
              match getReg reg.1.registry an with
              | some c => (reg.1, instantiate c custom_model_kwargs)
              | none => (reg.1, .error .contractViolation)
      | none => (st, .error .configuration)

/-- Embeds the `ModelType` enum (models/__init__.py:10-13). -/
inductive ModelType
  | zero_shot
  | similarity
  | custom
  deriving DecidableEq, Repr

/-- Embeds `AllModels = Union[ZeroShotModels, str]` (models/__init__.py:7). -/
inductive AllModels
  | enum (m : ZeroShotModels)
  | str (s : PyStr)

/-- Embeds how `ModelZeroShotClassifer.__init__` resolves the enum to its string value
and keeps a string as-is. -/
def modelIdOf : AllModels → PyStr
  | .enum m => m.value
  | .str s => s

/-- The class of the built-in adapter: a conformant `ModelTemplate` subclass. -/
def modelZeroShotClassiferClass : PyClass :=
  ⟨true, true, true, true, fun _ _ _ => [], fun _ _ _ => []⟩

/-- Constructing the built-in adapter and running its `init_model`
(model_zero_shot_classifer.py:10-27): the pipeline for the chosen model
identifier is bound once and reused by both classify methods. -/
def modelZeroShotClassiferInst (pipeOf : PyStr → Pipe) (model : AllModels) :
    PyInstance :=
  { cls := modelZeroShotClassiferClass,
    gs := ModelZeroShotClassifer.classify_golden_signal
      (pipeOf (modelIdOf model)),
    fc := ModelZeroShotClassifer.classify_fault_category
      (pipeOf (modelIdOf model)) }

/-- Embeds `ModelManager.__init__` (models/__init__.py:44-82) up to the resolution
of `self.model`: dispatch on the model type; `SIMILARITY` raises
`NotImplementedError`; `CUSTOM` delegates to `_create_custom_model` with
`model` passed only when it is a string, and `custom_model_kwargs or {}`. -/
def manager_init (pipeOf : PyStr → Pipe) (fs : FileSys) (pyhash : PyHash)
    (st : RegState) (ty : ModelType) (model : AllModels)
    (custom_model_instance : Option PyInstance)
    (custom_model_kwargs : Option Kwargs) :
    RegState × Except Err PyInstance :=
  match ty with
  | .zero_shot => (st, .ok (modelZeroShotClassiferInst pipeOf model))
  | .similarity => (st, .error .unsupported)
  | .custom =>
      create_custom_model fs pyhash st
        (match model with | .str s => some s | .enum _ => none)
        custom_model_instance
        (custom_model_kwargs.getD [])

/-- Observable lifecycle events on the bound backend instance. -/
inductive MEvent
  | initCall
  | gsCall
  | fcCall
  deriving DecidableEq, Repr

/-- A classify call on the manager. -/
inductive MCall
  | gs (input : List PyStr) (batch_size : Nat)
  | fc (input : List PyStr) (batch_size : Nat)

/-- The event a classify call produces. -/
def callEvent : MCall → MEvent
  | .gs _ _ => .gsCall
  | .fc _ _ => .fcCall

/-- Direct delegation of a classify call to the bound instance
(models/__init__.py:115-121). -/
def callExec (m : PyInstance) : MCall → List ZSRes
  | .gs input batch_size => m.gs input batch_size
  | .fc input batch_size => m.fc input batch_size

/-- A whole manager lifetime: construction (which resolves the single
backend instance and calls `init_model()` on it — models/__init__.py:81)
followed by any sequence of classify calls, each a direct delegation.
Returns the bound instance, the event trace on it, and the call outputs;
a construction-time error aborts before any classify call. -/
def manager_run (pipeOf : PyStr → Pipe) (fs : FileSys) (pyhash : PyHash)
    (st : RegState) (ty : ModelType) (model : AllModels)
    (custom_model_instance : Option PyInstance)
    (custom_model_kwargs : Option Kwargs) (calls : List MCall) :
    RegState × Except Err (PyInstance × List MEvent × List (List ZSRes)) :=
  match manager_init pipeOf fs pyhash st ty model custom_model_instance
      custom_model_kwargs with
  | (st1, .error e) => (st1, .error e)
  | (st1, .ok m) =>
      (st1, .ok (m, .initCall :: calls.map callEvent,
        calls.map (callExec m)))

/-- A conformant pre-built instance with trivial behaviour. -/
def goodInstance : PyInstance := ⟨goodClass, fun _ _ => [], fun _ _ => []⟩

/-- A pre-built object that does not subclass the abstract base and
implements none of the contract operations. -/
def badInstance : PyInstance :=
  ⟨⟨false, false, false, false, fun _ _ _ => [], fun _ _ _ => []⟩,
   fun _ _ => [], fun _ _ => []⟩

/-- C5 counterexample: supplying both resolution strategies — a path-spec
string *and* a pre-built instance — does not fail with a
`ConfigurationError`: construction succeeds and silently binds the
instance, ignoring the path. -/
theorem create_custom_model_conflict_counterexample :
    create_custom_model (fun _ => none) (fun _ => 0) initState
      (some "m.py:C".toList) (some goodInstance) [] =
      (initState, .ok goodInstance) := rfl

/-- C5 amended: custom-mode construction fails with the
`ConfigurationError` (`ValueError`) exactly when construction options are
absent (neither path-spec nor instance); when both strategies are supplied
no error is raised — the pre-built instance takes precedence and the
path-spec is silently ignored, so only one strategy is ever *used*. -/
theorem create_custom_model_option_resolution (fs : FileSys)
    (pyhash : PyHash) (st : RegState) (k : Kwargs) :
    (create_custom_model fs pyhash st none none k =
      (st, .error .configuration)) ∧
    (∀ i p, i.cls.subclassOfModelTemplate = true →
      create_custom_model fs pyhash st (some p) (some i) k = (st, .ok i)) := by
  refine ⟨rfl, fun i p h => ?_⟩
  simp [create_custom_model, h]

/-- Witness for the amended C5 on the empty file system with and without
the conformant instance. -/
theorem create_custom_model_option_resolution_witness :
    (create_custom_model (fun _ => none) (fun _ => 0) initState none none
        [] = (initState, .error .configuration)) ∧
    (goodInstance.cls.subclassOfModelTemplate = true) ∧
    (create_custom_model (fun _ => none) (fun _ => 0) initState
        (some "m.py:C".toList) (some goodInstance) [] =
      (initState, .ok goodInstance)) :=
  ⟨(create_custom_model_option_resolution (fun _ => none) (fun _ => 0)
      initState []).1,
   rfl,
   (create_custom_model_option_resolution (fun _ => none) (fun _ => 0)
      initState []).2 goodInstance "m.py:C".toList (by rfl)⟩

/-- C10: when a pre-built instance is supplied, the constructor keyword
mapping has no effect — the construction result is identical for any two
kwargs mappings — and a conformant instance is bound exactly as supplied,
the kwargs silently ignored. -/
theorem create_custom_model_instance_ignores_kwargs (fs : FileSys)
    (pyhash : PyHash) (st : RegState) (p : Option PyStr) (i : PyInstance)
    (k k' : Kwargs) :
    (create_custom_model fs pyhash st p (some i) k =
      create_custom_model fs pyhash st p (some i) k') ∧
    (i.cls.subclassOfModelTemplate = true →
      create_custom_model fs pyhash st p (some i) k = (st, .ok i)) := by
  refine ⟨rfl, fun h => ?_⟩
  simp [create_custom_model, h]

/-- Witness for C10: two different kwargs mappings, same result, binding
the supplied instance unchanged. -/
theorem create_custom_model_instance_ignores_kwargs_witness :
    (create_custom_model (fun _ => none) (fun _ => 0) initState
        (some "m.py:C".toList) (some goodInstance)
        [("threshold".toList, 8)] =
      create_custom_model (fun _ => none) (fun _ => 0) initState
        (some "m.py:C".toList) (some goodInstance) []) ∧
    (goodInstance.cls.subclassOfModelTemplate = true) ∧
    (create_custom_model (fun _ => none) (fun _ => 0) initState
        (some "m.py:C".toList) (some goodInstance)
        [("threshold".toList, 8)] = (initState, .ok goodInstance)) :=
  ⟨(create_custom_model_instance_ignores_kwargs (fun _ => none)
      (fun _ => 0) initState (some "m.py:C".toList) goodInstance
      [("threshold".toList, 8)] []).1,
   rfl,
   (create_custom_model_instance_ignores_kwargs (fun _ => none)
      (fun _ => 0) initState (some "m.py:C".toList) goodInstance
      [("threshold".toList, 8)] []).2 (by rfl)⟩

/-- C8: a supplied pre-built instance that does not satisfy the Contract —
it misses at least one required operation, hence (by the Python rule that an
abstract-method-bearing subclass cannot be instantiated) it cannot be an
instance of the abstract base — makes the whole manager lifetime fail at
construction with the contract violation (`TypeError`), for every sequence
of intended classify calls: none of them is ever reached. -/
theorem manager_prebuilt_contract_violation (pipeOf : PyStr → Pipe)
    (fs : FileSys) (pyhash : PyHash) (st : RegState) (model : AllModels)
    (i : PyInstance) (kwargs : Option Kwargs) (calls : List MCall)
    (hpython : i.cls.subclassOfModelTemplate = true →
      implementsAll i.cls = true)
    (hmiss : implementsAll i.cls = false) :
    manager_run pipeOf fs pyhash st .custom model (some i) kwargs calls =
      (st, .error .contractViolation) := by
  have hsub : i.cls.subclassOfModelTemplate = false := by
    cases h : i.cls.subclassOfModelTemplate
    · rfl
    · rw [hpython h] at hmiss; exact absurd hmiss (by simp)
  simp [manager_run, manager_init, create_custom_model, hsub]

/-- Witness for C8: the non-conformant `badInstance` and two pending
classify calls. -/
theorem manager_prebuilt_contract_violation_witness :
    (badInstance.cls.subclassOfModelTemplate = true →
      implementsAll badInstance.cls = true) ∧
    (implementsAll badInstance.cls = false) ∧
    (manager_run (fun _ _ _ _ => []) (fun _ => none) (fun _ => 0)
        initState .custom (.enum .CROSSENCODER) (some badInstance) none
        [.gs ["x".toList] 32, .fc ["x".toList] 32] =
      (initState, .error .contractViolation)) :=
  ⟨by intro h; exact absurd h (by decide), by rfl,
   manager_prebuilt_contract_violation (fun _ _ _ _ => []) (fun _ => none)
     (fun _ => 0) initState (.enum .CROSSENCODER) badInstance none
     [.gs ["x".toList] 32, .fc ["x".toList] 32]
     (by intro h; exact absurd h (by decide)) (by rfl)⟩

/-- A classify call never produces the init event. -/
lemma count_initCall_map_callEvent (calls : List MCall) :
    (calls.map callEvent).count MEvent.initCall = 0 := by
  induction calls with
  | nil => rfl
  | cons c cs ih => cases c <;> simp [callEvent, List.count_cons, ih]

/-- C9: a manager lifetime that constructs successfully binds exactly one
concrete backend instance — the one its construction resolves — for all its
calls; `init_model` is invoked on it exactly once, as the first event,
before every classify event; and each classify output is the direct
delegation of the call to that bound instance. -/
theorem manager_single_instance_init_once (pipeOf : PyStr → Pipe)
    (fs : FileSys) (pyhash : PyHash) (st : RegState) (ty : ModelType)
    (model : AllModels) (inst : Option PyInstance)
    (kwargs : Option Kwargs) (calls : List MCall) (st1 : RegState)
    (m : PyInstance) (evs : List MEvent) (outs : List (List ZSRes))
    (h : manager_run pipeOf fs pyhash st ty model inst kwargs calls =
      (st1, .ok (m, evs, outs))) :
    manager_init pipeOf fs pyhash st ty model inst kwargs =
      (st1, .ok m) ∧
    evs = .initCall :: calls.map callEvent ∧
    evs.count .initCall = 1 ∧
    evs.head? = some .initCall ∧
    outs = calls.map (callExec m) := by
  unfold manager_run at h
  split at h
  · exact absurd h (by simp)
  · next st1' m' heq =>
      simp only [Prod.mk.injEq, Except.ok.injEq] at h
      obtain ⟨h1, hm, hevs, houts⟩ := h
      subst h1; subst hm; subst hevs; subst houts
      refine ⟨heq, rfl, ?_, rfl, rfl⟩
      simp [List.count_cons, count_initCall_map_callEvent]

/-- Witness for C9: a successful zero-shot construction followed by one
golden-signal and one fault-category call against a trivial backend. -/
theorem manager_single_instance_init_once_witness :
    (manager_run (fun _ _ _ _ => []) (fun _ => none) (fun _ => 0)
        initState .zero_shot (.enum .CROSSENCODER) none none
        [.gs ["x".toList] 32, .fc ["x".toList] 1] =
      (initState,
       .ok (modelZeroShotClassiferInst (fun _ _ _ _ => [])
              (.enum .CROSSENCODER),
            [MEvent.initCall, .gsCall, .fcCall], [[], []]))) ∧
    (manager_init (fun _ _ _ _ => []) (fun _ => none) (fun _ => 0)
        initState .zero_shot (.enum .CROSSENCODER) none none =
      (initState,
       .ok (modelZeroShotClassiferInst (fun _ _ _ _ => [])
              (.enum .CROSSENCODER))) ∧
     ([MEvent.initCall, .gsCall, .fcCall] =
       .initCall :: [MCall.gs ["x".toList] 32,
         MCall.fc ["x".toList] 1].map callEvent) ∧
     ([MEvent.initCall, .gsCall, .fcCall].count .initCall = 1) ∧
     (([MEvent.initCall, .gsCall, .fcCall] :
         List MEvent).head? = some .initCall) ∧
     (([[], []] : List (List ZSRes)) =
       [MCall.gs ["x".toList] 32, MCall.fc ["x".toList] 1].map
         (callExec (modelZeroShotClassiferInst (fun _ _ _ _ => [])
           (.enum .CROSSENCODER))))) :=
  ⟨rfl,
   manager_single_instance_init_once (fun _ _ _ _ => []) (fun _ => none)
     (fun _ => 0) initState .zero_shot (.enum .CROSSENCODER) none none
     [.gs ["x".toList] 32, .fc ["x".toList] 1] initState
     (modelZeroShotClassiferInst (fun _ _ _ _ => [])
       (.enum .CROSSENCODER))
     [MEvent.initCall, .gsCall, .fcCall] [[], []] rfl⟩

/-- Inserting a class and looking up the same name yields that class. -/
lemma getReg_setReg_self (r : List (PyStr × PyClass)) (n : PyStr)
    (c : PyClass) : getReg (setReg r n c) n = some c := by
  simp [getReg, setReg, List.find?_cons]

/-- A successful `register_from_path` leaves the class stored under the
registration name. -/
lemma register_from_path_ok_getReg (fs : FileSys) (st : RegState)
    (n s : PyStr) (st' : RegState) (c : PyClass)
    (h : register_from_path fs st n s = (st', .ok c)) :
    getReg st'.registry n = some c := by
  unfold register_from_path at h
  split at h
  · simp at h
  · split at h
    all_goals
      split at h
      · simp at h
      · simp only [Prod.mk.injEq, Except.ok.injEq] at h
        obtain ⟨h1, h2⟩ := h
        subst h2
        rw [← h1]
        apply getReg_setReg_self

/-- When the auto-generated name is already registered, a path-mode custom
construction touches no state and instantiates the cached class. -/
lemma create_custom_model_of_registered (fs : FileSys) (pyhash : PyHash)
    (st : RegState) (p : PyStr) (k : Kwargs) (c : PyClass)
    (hc : getReg st.registry (autoName pyhash p) = some c) :
    create_custom_model fs pyhash st (some p) none k =
      (st, instantiate c k) := by
  have hreg : is_registered st (autoName pyhash p) = true := by
    simp [is_registered, hc]
  simp [create_custom_model, hreg, hc]

/-- A successful path-mode custom construction leaves a class cached under
the auto-generated name. -/
lemma create_custom_model_ok_registered (fs : FileSys) (pyhash : PyHash)
    (st st1 : RegState) (p : PyStr) (k : Kwargs) (i : PyInstance)
    (h : create_custom_model fs pyhash st (some p) none k =
      (st1, .ok i)) :
    ∃ c, getReg st1.registry (autoName pyhash p) = some c := by
  by_cases hreg : is_registered st (autoName pyhash p) = true
  · obtain ⟨c, hc⟩ := Option.isSome_iff_exists.mp hreg
    rw [create_custom_model_of_registered fs pyhash st p k c hc] at h
    obtain ⟨h1, _⟩ := Prod.mk.injEq .. ▸ h
    exact ⟨c, h1 ▸ hc⟩
  · rcases hr : register_from_path fs st (autoName pyhash p) p with
      ⟨str, res⟩
    cases res with
    | error e =>
        exfalso
        simp [create_custom_model, hreg, hr, Except.map] at h
    | ok c =>
        have hget : getReg str.registry (autoName pyhash p) = some c :=
          register_from_path_ok_getReg fs st _ p str c hr
        have hcreate : create_custom_model fs pyhash st (some p) none k =
            (str, instantiate c k) := by
          simp [create_custom_model, hreg, hr, hget, Except.map]
        rw [hcreate] at h
        obtain ⟨h1, _⟩ := Prod.mk.injEq .. ▸ h
        exact ⟨c, h1 ▸ hget⟩

/-- One process-level operation touching the registry: a direct
`ModelRegistry.register_from_path` call, or a `ModelManager` construction
in custom path-spec mode. -/
inductive RegOp
  | register (name spec : PyStr)
  | managerConstruct (spec : PyStr) (kwargs : Kwargs)

/-- The state reached after one operation. -/
def regStep (fs : FileSys) (pyhash : PyHash) (st : RegState) :
    RegOp → RegState
  | .register n s => (register_from_path fs st n s).1
  | .managerConstruct s k =>
      (create_custom_model fs pyhash st (some s) none k).1

/-- The state reached after a sequence of operations. -/
def runOps (fs : FileSys) (pyhash : PyHash) (st : RegState)
    (ops : List RegOp) : RegState :=
  ops.foldl (regStep fs pyhash) st

/-- A file system with one script `m.py` defining the conformant class
`C`. -/
def scriptFS : FileSys := fun p =>
  if p = "m.py".toList then some [("C".toList, .cls goodClass)] else none

/-- C3 counterexample: two direct registry registrations of the same
path-spec `"m.py:C"` (under the names `a` and `b`) execute the
top-level code twice — the registry caches by *name*, and
`register_from_path` never checks it before loading, so a path is not
loaded at most once per process across registration sequences. -/
theorem register_twice_reexecutes_counterexample :
    ((runOps scriptFS (fun _ => 0) initState
        [.register "a".toList "m.py:C".toList,
         .register "b".toList "m.py:C".toList]).loads =
      ["m.py".toList, "m.py".toList]) ∧
    ((runOps scriptFS (fun _ => 0) initState
        [.register "a".toList "m.py:C".toList,
         .register "b".toList "m.py:C".toList]).loads.count
      "m.py".toList = 2) :=
  ⟨rfl, by decide⟩

/-- C3 amended: only Manager constructions deduplicate script loading —
after a successful custom path-spec construction, the loaded class is
cached in the registry under the hash-derived name, and any further
construction against the same path-spec reuses that cached class without
touching the state (in particular the script-execution trace is unchanged:
the script is not re-executed); direct `register_from_path` calls, by
contrast, execute the script on every call. -/
theorem manager_construct_caches_script (fs : FileSys) (pyhash : PyHash)
    (st st1 : RegState) (p : PyStr) (i : PyInstance) (k k' : Kwargs)
    (h : create_custom_model fs pyhash st (some p) none k =
      (st1, .ok i)) :
    ∃ c, getReg st1.registry (autoName pyhash p) = some c ∧
      create_custom_model fs pyhash st1 (some p) none k' =
        (st1, instantiate c k') ∧
      (create_custom_model fs pyhash st1 (some p) none k').1.loads =
        st1.loads := by
  obtain ⟨c, hc⟩ := create_custom_model_ok_registered fs pyhash st st1 p
    k i h
  have h2 := create_custom_model_of_registered fs pyhash st1 p k' c hc
  exact ⟨c, hc, h2, by rw [h2]⟩

/-- The state after a first successful Manager construction against
`"m.py:C"`: the class cached under the auto name, the script executed
once. -/
def cachedStateW : RegState :=
  ⟨[(autoName (fun _ => 0) "m.py:C".toList, goodClass)], ["m.py".toList]⟩

/-- Witness for the amended C3: a successful first construction against
`"m.py:C"` on `scriptFS`, then the cached-reuse facts at that state. -/
theorem manager_construct_caches_script_witness :
    (create_custom_model scriptFS (fun _ => 0) initState
        (some "m.py:C".toList) none [] =
      (cachedStateW, .ok goodInstance)) ∧
    (∃ c, getReg cachedStateW.registry
        (autoName (fun _ => 0) "m.py:C".toList) = some c ∧
      create_custom_model scriptFS (fun _ => 0) cachedStateW
          (some "m.py:C".toList) none [] =
        (cachedStateW, instantiate c []) ∧
      (create_custom_model scriptFS (fun _ => 0) cachedStateW
          (some "m.py:C".toList) none []).1.loads =
        cachedStateW.loads) :=
  ⟨rfl,
   manager_construct_caches_script scriptFS (fun _ => 0) initState
     cachedStateW "m.py:C".toList goodInstance [] [] rfl⟩

end LogAn
